import Mathlib

/-!
Shallow embedding of the vpp-sim core (devices, controllers, KPI accounting)
over exact rational arithmetic, together with theorems settling the spec
claims about it.

Modelling conventions:
* Rust `f32` values are modelled as `ℚ`; arithmetic is exact.
* Rust `f32::clamp(lo, hi)` is `rustClamp` below, with the same branch
  structure as the Rust source (Rust panics when `lo > hi`; the model is
  total, and theorems that rely on clamping assume `lo ≤ hi` where the
  repository guarantees it).
* Seeded random draws (Box-Muller Gaussian noise, AR(1) innovations) are
  passed to the embedded functions as explicit rational arguments: a device
  call is a pure function of its state and the sampled noise value.
* `f32::cos` inside the half-cosine daylight envelope is likewise passed as
  an explicit argument `cos_val`, standing for `cos(2π·x)` at
  `x = (t mod S − sunrise) / (sunset − sunrise)`.
-/

namespace VppSim

/-- Rust `f32::clamp(self, lo, hi)`: `if self < lo { lo } else if self > hi { hi } else { self }`. -/
def rustClamp (x lo hi : ℚ) : ℚ :=
  if x < lo then lo else if hi < x then hi else x

/-- Battery state, mirroring `src/devices/battery.rs` (`struct Battery`).
The RNG-free device is pure state. -/
structure Battery where
  capacity_kwh : ℚ
  soc : ℚ
  max_charge_kw : ℚ
  max_discharge_kw : ℚ
  eta_c : ℚ
  eta_d : ℚ
  steps_per_day : ℕ
deriving DecidableEq

/-- The assertions of `Battery::new` (battery.rs lines 69-74). -/
def Battery.valid (b : Battery) : Prop :=
  0 < b.capacity_kwh ∧ 0 ≤ b.soc ∧ b.soc ≤ 1 ∧
  0 ≤ b.max_charge_kw ∧ 0 ≤ b.max_discharge_kw ∧
  0 < b.eta_c ∧ b.eta_c ≤ 1 ∧ 0 < b.eta_d ∧ b.eta_d ≤ 1 ∧
  0 < b.steps_per_day

instance (b : Battery) : Decidable b.valid := by
  unfold Battery.valid; infer_instance

/-- `Battery::power_kw` from battery.rs lines 108-149, verbatim: a positive
setpoint takes the discharge branch (capped by `max_discharge_kw`, SOC
decreases), a negative setpoint takes the charge branch (capped by
`-max_charge_kw`, SOC increases). The engine passes
`dispatch.battery_setpoint_kw` as the setpoint (engine.rs line 119).
Returns the updated battery and the actual power. -/
def Battery.power_kw (b : Battery) (setpoint_kw : ℚ) : Battery × ℚ :=
  let dt_hours : ℚ := 24 / (b.steps_per_day : ℚ)
  let cmd_kw : ℚ :=
    if 0 ≤ setpoint_kw then min setpoint_kw b.max_discharge_kw
    else max setpoint_kw (-b.max_charge_kw)
  if 0 < cmd_kw then
    let max_kwh_this_step := b.soc * b.capacity_kwh * b.eta_d
    let max_kw_soc := max_kwh_this_step / dt_hours
    let actual_kw := min cmd_kw (max max_kw_soc 0)
    let soc' := b.soc - (actual_kw * dt_hours) / (b.capacity_kwh * b.eta_d)
    ({ b with soc := rustClamp soc' 0 1 }, actual_kw)
  else if cmd_kw < 0 then
    let cmd_abs := -cmd_kw
    let max_kwh_this_step := (1 - b.soc) * b.capacity_kwh / b.eta_c
    let max_kw_soc := max_kwh_this_step / dt_hours
    let actual_abs_kw := min cmd_abs (max max_kw_soc 0)
    let actual_kw := -actual_abs_kw
    let soc' := b.soc + (actual_abs_kw * dt_hours * b.eta_c) / b.capacity_kwh
    ({ b with soc := rustClamp soc' 0 1 }, actual_kw)
  else
    (b, 0)

/-- The shared daylight envelope `daylight_frac` of `src/devices/types.rs`
lines 77-85 (also inlined in solar.rs lines 105-114): zero outside
`[sunrise, sunset)`, otherwise `0.5 * (1 − cos(2π·x))`, with the cosine
sample supplied as `cos_val` (see the module docstring). -/
def daylight_frac (t steps_per_day sunrise_idx sunset_idx : ℕ) (cos_val : ℚ) : ℚ :=
  if t % steps_per_day < sunrise_idx ∨ sunset_idx ≤ t % steps_per_day then 0
  else 1/2 * (1 - cos_val)

/-- Static parameters of the simple solar model (`src/devices/solar.rs`,
`struct SolarPv`); the owned RNG is modelled by passing each Gaussian draw
as an argument. -/
structure SolarPv where
  kw_peak : ℚ
  steps_per_day : ℕ
  sunrise_idx : ℕ
  sunset_idx : ℕ
deriving DecidableEq

/-- `SolarPv::power_kw` from solar.rs lines 133-144, verbatim: returns 0 at
night and otherwise the POSITIVE value `max(kw_peak · frac · (1 + noise), 0)`
("Return positive for generation", solar.rs line 142). `noise_sample` is the
Gaussian draw `gaussian_noise(rng, noise_std)` (exactly 0 when
`noise_std = 0`, types.rs lines 97-100). -/
def SolarPv.power_kw (s : SolarPv) (t : ℕ) (cos_val noise_sample : ℚ) : ℚ :=
  let frac := daylight_frac t s.steps_per_day s.sunrise_idx s.sunset_idx cos_val
  if frac ≤ 0 then 0
  else
    let noise_mult := 1 + noise_sample
    let kw := s.kw_peak * frac * noise_mult
    max kw 0

/-- Solar PV parameters and AR(1) cloud state, mirroring
`src/devices/solar_ar1.rs` (`struct SolarPvAr1`); the RNG is modelled by
passing each innovation draw `ε` as an argument. -/
structure SolarPvAr1 where
  kw_peak : ℚ
  steps_per_day : ℕ
  sunrise_idx : ℕ
  sunset_idx : ℕ
  alpha : ℚ
  cloud_noise_std : ℚ
  multiplier : ℚ
deriving DecidableEq

/-- `SolarPvAr1::new` (solar_ar1.rs lines 70-93): clamps `kw_peak` and
`cloud_noise_std` to be non-negative, clamps `alpha` into `[0,1]` and starts
the cloud multiplier at `1.0`. The constructor assertion
`sunrise_idx < sunset_idx ≤ steps_per_day` is a precondition, not state. -/
def SolarPvAr1.new (kw_peak : ℚ) (sunrise_idx sunset_idx : ℕ)
    (alpha cloud_noise_std : ℚ) (steps_per_day : ℕ) : SolarPvAr1 :=
  { kw_peak := max kw_peak 0
    steps_per_day := steps_per_day
    sunrise_idx := sunrise_idx
    sunset_idx := sunset_idx
    alpha := rustClamp alpha 0 1
    cloud_noise_std := max cloud_noise_std 0
    multiplier := 1 }

/-- `SolarPvAr1::advance_multiplier` (solar_ar1.rs lines 103-108):
`m ← clamp(α·m + (1−α)·ε, 0.2, 1.2)`; `epsilon` is the Gaussian draw
`gaussian_noise(rng, cloud_noise_std)`. Returns the updated device and the
new multiplier. -/
def SolarPvAr1.advance_multiplier (s : SolarPvAr1) (epsilon : ℚ) : SolarPvAr1 × ℚ :=
  let m := rustClamp (s.alpha * s.multiplier + (1 - s.alpha) * epsilon) 0.2 1.2
  ({ s with multiplier := m }, m)

/-- `SolarPvAr1::power_kw` (solar_ar1.rs lines 117-127): advances the
multiplier first (every call, night included), then returns 0 at night and
`−max(kw_peak · frac · m, 0)` in daylight. -/
def SolarPvAr1.power_kw (s : SolarPvAr1) (t : ℕ) (cos_val epsilon : ℚ) : SolarPvAr1 × ℚ :=
  let sm := s.advance_multiplier epsilon
  let frac := daylight_frac t s.steps_per_day s.sunrise_idx s.sunset_idx cos_val
  if frac ≤ 0 then (sm.1, 0)
  else (sm.1, -(max (s.kw_peak * frac * sm.2) 0))

/-- Controller input record, mirroring `StepInput` in `src/sim/types.rs`
lines 62-77. -/
structure StepInput where
  timestep : ℕ
  forecast_kw : ℚ
  target_kw : ℚ
  dr_requested_kw : ℚ
  base_demand_raw_kw : ℚ
  solar_kw : ℚ
  ev_requested_kw : ℚ
deriving DecidableEq

/-- Controller state record, mirroring `StepState` in `src/sim/types.rs`
lines 81-92. -/
structure StepState where
  battery_soc : ℚ
  battery_max_charge_kw : ℚ
  battery_max_discharge_kw : ℚ
  max_import_kw : ℚ
  max_export_kw : ℚ
deriving DecidableEq

/-- Controller output record, mirroring `StepDispatch` in `src/sim/types.rs`
lines 96-107. -/
structure StepDispatch where
  base_demand_kw : ℚ
  ev_after_dr_kw : ℚ
  ev_cap_kw : ℚ
  battery_setpoint_kw : ℚ
  dr_achieved_kw : ℚ
deriving DecidableEq

/-- `apply_demand_response_kw` from `src/sim/controller.rs` lines 32-50:
shed the flexible load first, then baseload. Returns
`(baseload_after_kw, flexible_after_kw, achieved_reduction_kw)`. -/
def apply_demand_response_kw (baseload_kw flexible_load_kw requested_reduction_kw : ℚ) :
    ℚ × ℚ × ℚ :=
  let remaining0 := max requested_reduction_kw 0
  let flexible := max flexible_load_kw 0
  let flex_shed := min flexible remaining0
  let flexible_after := flexible - flex_shed
  let remaining1 := remaining0 - flex_shed
  let base := max baseload_kw 0
  let base_shed := min base remaining1
  let baseload_after := base - base_shed
  let achieved := flex_shed + base_shed
  (baseload_after, flexible_after, achieved)

/-- `capped_flexible_load_kw` from controller.rs lines 54-64. -/
def capped_flexible_load_kw (net_fixed_kw requested_flexible_kw max_import_kw
    battery_max_discharge_kw : ℚ) : ℚ :=
  let requested := max requested_flexible_kw 0
  let overload_kw := max (net_fixed_kw + requested - battery_max_discharge_kw - max_import_kw) 0
  max (requested - overload_kw) 0

/-- `constrained_battery_setpoint_kw` from controller.rs lines 71-98. -/
def constrained_battery_setpoint_kw (net_without_battery_kw target_kw max_import_kw
    max_export_kw battery_max_charge_kw battery_max_discharge_kw : ℚ) : ℚ :=
  let min_feeder_kw := -max_export_kw
  let max_feeder_kw := max_import_kw
  let constrained_target_kw := rustClamp target_kw min_feeder_kw max_feeder_kw
  let low_kw := max (-battery_max_discharge_kw) (min_feeder_kw - net_without_battery_kw)
  let high_kw := min battery_max_charge_kw (max_feeder_kw - net_without_battery_kw)
  let desired_kw := constrained_target_kw - net_without_battery_kw
  if low_kw ≤ high_kw then rustClamp desired_kw low_kw high_kw
  else rustClamp desired_kw (-battery_max_discharge_kw) battery_max_charge_kw

/-- `battery_feasibility_window` from controller.rs lines 103-115. -/
def battery_feasibility_window (net_without_battery_kw max_import_kw max_export_kw
    battery_max_charge_kw battery_max_discharge_kw : ℚ) : ℚ × ℚ :=
  let low := max (-battery_max_discharge_kw) (-max_export_kw - net_without_battery_kw)
  let high := min battery_max_charge_kw (max_import_kw - net_without_battery_kw)
  (low, high)

/-- `NaiveRtController::dispatch` from controller.rs lines 133-174. -/
def NaiveRtController.dispatch (input : StepInput) (state : StepState) : StepDispatch :=
  let dr := apply_demand_response_kw input.base_demand_raw_kw input.ev_requested_kw
    input.dr_requested_kw
  let base_demand_kw := dr.1
  let ev_after_dr_kw := dr.2.1
  let dr_achieved_kw := dr.2.2
  let net_fixed_kw := base_demand_kw + input.solar_kw
  let ev_cap_kw := capped_flexible_load_kw net_fixed_kw ev_after_dr_kw
    state.max_import_kw state.battery_max_discharge_kw
  let net_without_battery_kw := net_fixed_kw + ev_cap_kw
  let battery_setpoint_kw := constrained_battery_setpoint_kw net_without_battery_kw
    input.target_kw state.max_import_kw state.max_export_kw
    state.battery_max_charge_kw state.battery_max_discharge_kw
  ⟨base_demand_kw, ev_after_dr_kw, ev_cap_kw, battery_setpoint_kw, dr_achieved_kw⟩

/-- Greedy controller state, mirroring `struct GreedyController` in
controller.rs lines 190-205. The two `remaining_*` vectors are the reverse
prefix sums precomputed by `GreedyController::new` (length
`steps_per_day + 1`); here they are plain list fields. -/
structure GreedyController where
  steps_per_day : ℕ
  capacity_kwh : ℚ
  dt_hours : ℚ
  eta_c : ℚ
  eta_d : ℚ
  remaining_charge_kwh : List ℚ
  remaining_discharge_kwh : List ℚ
deriving DecidableEq

/-- The capacity-aware rate-limiting block of `GreedyController::dispatch`
(controller.rs lines 329-360), computing `desired_kw` from the naive
tracking value. Vector indexing `v[next.min(steps_per_day)]` is modelled by
`List.getD` (in the source the index is always in bounds: the vectors have
length `steps_per_day + 1`). -/
def GreedyController.desired_kw (c : GreedyController) (battery_soc : ℚ) (timestep : ℕ)
    (tracking_kw : ℚ) : ℚ :=
  let t_mod := timestep % c.steps_per_day
  let next := t_mod + 1
  if 0 < tracking_kw then
    let current_energy := tracking_kw * c.dt_hours * c.eta_c
    let future_energy := c.remaining_charge_kwh.getD (min next c.steps_per_day) 0
    let total_demand := current_energy + future_energy
    let available_room := (1 - battery_soc) * c.capacity_kwh
    if available_room < total_demand ∧ 0 < total_demand then
      let scale := available_room / total_demand
      tracking_kw * scale
    else tracking_kw
  else if tracking_kw < 0 then
    let current_energy := (-tracking_kw) * c.dt_hours / c.eta_d
    let future_energy := c.remaining_discharge_kwh.getD (min next c.steps_per_day) 0
    let total_demand := current_energy + future_energy
    let available_energy := battery_soc * c.capacity_kwh
    if available_energy < total_demand ∧ 0 < total_demand then
      let scale := available_energy / total_demand
      tracking_kw * scale
    else tracking_kw
  else 0

/-- `GreedyController::dispatch` from controller.rs lines 304-385, with the
rate-limiting block factored as `GreedyController.desired_kw`. -/
def GreedyController.dispatch (c : GreedyController) (input : StepInput)
    (state : StepState) : StepDispatch :=
  let dr := apply_demand_response_kw input.base_demand_raw_kw input.ev_requested_kw
    input.dr_requested_kw
  let base_demand_kw := dr.1
  let ev_after_dr_kw := dr.2.1
  let dr_achieved_kw := dr.2.2
  let net_fixed_kw := base_demand_kw + input.solar_kw
  let ev_cap_kw := capped_flexible_load_kw net_fixed_kw ev_after_dr_kw
    state.max_import_kw state.battery_max_discharge_kw
  let net_without_battery_kw := net_fixed_kw + ev_cap_kw
  let constrained_target := rustClamp input.target_kw (-state.max_export_kw) state.max_import_kw
  let tracking_kw := constrained_target - net_without_battery_kw
  let desired_kw := c.desired_kw state.battery_soc input.timestep tracking_kw
  let window := battery_feasibility_window net_without_battery_kw state.max_import_kw
    state.max_export_kw state.battery_max_charge_kw state.battery_max_discharge_kw
  let battery_setpoint_kw :=
    if window.1 ≤ window.2 then rustClamp desired_kw window.1 window.2
    else rustClamp desired_kw (-state.battery_max_discharge_kw) state.battery_max_charge_kw
  ⟨base_demand_kw, ev_after_dr_kw, ev_cap_kw, battery_setpoint_kw, dr_achieved_kw⟩

/-- Per-step record as consumed by `KpiReport::from_results`
(`src/sim/kpi.rs`). Note: the declaration of `StepResult` in
`src/sim/types.rs` lines 111-148 has NO `imbalance_cost` field and
`Engine::step` computes none, while kpi.rs line 88, api/types.rs line 80,
io/export.rs line 97 and tui/layout.rs line 192 all read `r.imbalance_cost`;
this record follows the field set those consumers require (types.rs fields
plus `imbalance_cost`). See claim C3. -/
structure StepResult where
  timestep : ℕ
  time_hr : ℚ
  base_kw_raw : ℚ
  base_kw_after_dr : ℚ
  solar_kw : ℚ
  ev_requested_kw : ℚ
  ev_after_dr_kw : ℚ
  ev_cap_kw : ℚ
  ev_actual_kw : ℚ
  battery_setpoint_kw : ℚ
  battery_actual_kw : ℚ
  battery_soc : ℚ
  feeder_kw : ℚ
  target_kw : ℚ
  tracking_error_kw : ℚ
  dr_requested_kw : ℚ
  dr_achieved_kw : ℚ
  within_feeder_limits : Bool
  imbalance_cost : ℚ
deriving DecidableEq

/-- The mutable accumulators of the loop in `KpiReport::from_results`
(kpi.rs lines 61-69). -/
structure KpiAcc where
  sq_sum : ℚ
  abs_sum : ℚ
  dr_requested_sum : ℚ
  dr_achieved_sum : ℚ
  peak_import : ℚ
  peak_export : ℚ
  bat_throughput : ℚ
  violations : ℕ
  imbalance_cost_sum : ℚ
deriving DecidableEq

/-- One iteration of the loop body in `KpiReport::from_results`
(kpi.rs lines 71-89). -/
def kpiAccStep (dt_hours : ℚ) (acc : KpiAcc) (r : StepResult) : KpiAcc :=
  { sq_sum := acc.sq_sum + r.tracking_error_kw * r.tracking_error_kw
    abs_sum := acc.abs_sum + |r.tracking_error_kw|
    dr_requested_sum := acc.dr_requested_sum + r.dr_requested_kw
    dr_achieved_sum := acc.dr_achieved_sum + r.dr_achieved_kw
    peak_import := max acc.peak_import r.feeder_kw
    peak_export := max acc.peak_export (-r.feeder_kw)
    bat_throughput := acc.bat_throughput + |r.battery_actual_kw| * dt_hours
    violations := acc.violations + (if r.within_feeder_limits then 0 else 1)
    imbalance_cost_sum := acc.imbalance_cost_sum + r.imbalance_cost }

/-- The aggregate KPI record, mirroring `struct KpiReport` in kpi.rs
lines 12-31. -/
structure KpiReport where
  rmse_tracking_kw : ℚ
  mae_tracking_kw : ℚ
  curtailment_pct : ℚ
  peak_import_kw : ℚ
  peak_export_kw : ℚ
  battery_throughput_kwh : ℚ
  battery_equivalent_full_cycles : ℚ
  feeder_violation_count : ℕ
  total_imbalance_cost : ℚ
deriving DecidableEq

/-- `KpiReport::from_results` (kpi.rs lines 45-114). `f32::sqrt` — used only
for the RMSE field on the non-empty path — is modelled as the uninterpreted
parameter `sqrtQ`; no claim settled here depends on its value. -/
def KpiReport.from_results (sqrtQ : ℚ → ℚ) (results : List StepResult)
    (dt_hours battery_capacity_kwh : ℚ) : KpiReport :=
  match results with
  | [] => ⟨0, 0, 0, 0, 0, 0, 0, 0, 0⟩
  | _ :: _ =>
    let n : ℚ := results.length
    let acc := results.foldl (kpiAccStep dt_hours) ⟨0, 0, 0, 0, 0, 0, 0, 0, 0⟩
    let curtailment_pct :=
      if 0 < acc.dr_requested_sum then 100 * acc.dr_achieved_sum / acc.dr_requested_sum
      else 0
    let cycles :=
      if 0 < battery_capacity_kwh then acc.bat_throughput / (2 * battery_capacity_kwh)
      else 0
    { rmse_tracking_kw := sqrtQ (acc.sq_sum / n)
      mae_tracking_kw := acc.abs_sum / n
      curtailment_pct := curtailment_pct
      peak_import_kw := acc.peak_import
      peak_export_kw := acc.peak_export
      battery_throughput_kwh := acc.bat_throughput
      battery_equivalent_full_cycles := cycles
      feeder_violation_count := acc.violations
      total_imbalance_cost := acc.imbalance_cost_sum }

end VppSim

namespace VppSim

/-- Rust clamp agrees with `max lo (min x hi)` whenever `lo ≤ hi` (the only
case in which the Rust call does not panic). -/
theorem rustClamp_eq_max_min (x lo hi : ℚ) (h : lo ≤ hi) :
    rustClamp x lo hi = max lo (min x hi) := by
  unfold rustClamp
  rcases lt_or_le x lo with h1 | h1
  · rw [if_pos h1, min_eq_left (le_of_lt (lt_of_lt_of_le h1 h)), max_eq_left (le_of_lt h1)]
  · rw [if_neg (not_lt_of_le h1)]
    rcases lt_or_le hi x with h2 | h2
    · rw [if_pos h2, min_eq_right (le_of_lt h2), max_eq_right h]
    · rw [if_neg (not_lt_of_le h2), min_eq_left h2, max_eq_right h1]

/-- A clamped value lies inside the window whenever `lo ≤ hi`. -/
theorem rustClamp_mem (x lo hi : ℚ) (h : lo ≤ hi) :
    lo ≤ rustClamp x lo hi ∧ rustClamp x lo hi ≤ hi := by
  rw [rustClamp_eq_max_min x lo hi h]
  exact ⟨le_max_left _ _, max_le h (min_le_right _ _)⟩

/-- CLAIM C9. Demand response sheds flexible (EV) load first and baseload
second: with non-negative inputs, `flex_shed = min ev req`,
`base_shed = min base (req − flex_shed)`, the outputs are
`(base − base_shed, ev − flex_shed, flex_shed + base_shed)`, and the
achieved reduction satisfies `0 ≤ achieved ≤ req` and
`achieved ≤ base + ev`. -/
theorem apply_demand_response_spec (base ev req : ℚ)
    (hb : 0 ≤ base) (he : 0 ≤ ev) (hr : 0 ≤ req) :
    (apply_demand_response_kw base ev req).1 = base - min base (req - min ev req) ∧
    (apply_demand_response_kw base ev req).2.1 = ev - min ev req ∧
    (apply_demand_response_kw base ev req).2.2 = min ev req + min base (req - min ev req) ∧
    0 ≤ (apply_demand_response_kw base ev req).2.2 ∧
    (apply_demand_response_kw base ev req).2.2 ≤ req ∧
    (apply_demand_response_kw base ev req).2.2 ≤ base + ev := by
  have h2 : min ev req ≤ req := min_le_right _ _
  have hrw : apply_demand_response_kw base ev req =
      (base - min base (req - min ev req), ev - min ev req,
       min ev req + min base (req - min ev req)) := by
    simp only [apply_demand_response_kw, max_eq_left hr, max_eq_left he, max_eq_left hb]
  rw [hrw]
  have h1 : min ev req ≤ ev := min_le_left _ _
  have h3 : min base (req - min ev req) ≤ base := min_le_left _ _
  have h4 : min base (req - min ev req) ≤ req - min ev req := min_le_right _ _
  have h5 : (0 : ℚ) ≤ min ev req := le_min he hr
  have h6 : (0 : ℚ) ≤ min base (req - min ev req) := le_min hb (by linarith)
  refine ⟨rfl, rfl, rfl, ?_, ?_, ?_⟩
  · dsimp only; linarith
  · dsimp only; linarith
  · dsimp only; linarith

/-- Witness for C9 (scenario S6 of the spec): base 3, EV 2, request 4 gives
baseload-after 1, EV-after 0, achieved 4. -/
theorem apply_demand_response_spec_witness :
    (apply_demand_response_kw 3 2 4).1 = 1 ∧
    (apply_demand_response_kw 3 2 4).2.1 = 0 ∧
    (apply_demand_response_kw 3 2 4).2.2 = 4 := by
  obtain ⟨e1, e2, e3, -, -, -⟩ :=
    apply_demand_response_spec 3 2 4 (by norm_num) (by norm_num) (by norm_num)
  rw [e1, e2, e3]
  norm_num

/-- One call to `Battery::power_kw` keeps the SOC inside `[0,1]`: the two
updating branches clamp it there and the zero branch leaves it unchanged. -/
theorem battery_power_kw_soc_mem (b : Battery) (sp : ℚ)
    (h0 : 0 ≤ b.soc) (h1 : b.soc ≤ 1) :
    0 ≤ (b.power_kw sp).1.soc ∧ (b.power_kw sp).1.soc ≤ 1 := by
  rw [Battery.power_kw]
  by_cases hp : (0:ℚ) < (if 0 ≤ sp then min sp b.max_discharge_kw else max sp (-b.max_charge_kw))
  · rw [if_pos hp]
    exact rustClamp_mem _ 0 1 (by norm_num)
  · rw [if_neg hp]
    by_cases hn : (if 0 ≤ sp then min sp b.max_discharge_kw else max sp (-b.max_charge_kw)) < 0
    · rw [if_pos hn]
      exact rustClamp_mem _ 0 1 (by norm_num)
    · rw [if_neg hn]
      exact ⟨h0, h1⟩

/-- CLAIM C7. For a battery constructed with valid parameters (the
assertions of `Battery::new`), the state of charge stays in `[0,1]` after
every sequence of `power_kw` calls, for every sequence of setpoints. -/
theorem battery_soc_unit_interval (b : Battery) (sps : List ℚ) (hb : b.valid) :
    0 ≤ (sps.foldl (fun s sp => (Battery.power_kw s sp).1) b).soc ∧
    (sps.foldl (fun s sp => (Battery.power_kw s sp).1) b).soc ≤ 1 := by
  have h0 : 0 ≤ b.soc := hb.2.1
  have h1 : b.soc ≤ 1 := hb.2.2.1
  clear hb
  induction sps generalizing b with
  | nil => exact ⟨h0, h1⟩
  | cons sp rest ih =>
    simp only [List.foldl_cons]
    exact ih _ (battery_power_kw_soc_mem b sp h0 h1).1 (battery_power_kw_soc_mem b sp h0 h1).2

/-- Witness for C7: a 10 kWh battery at 50% SOC driven by the setpoints
`[10, −10, 3]` keeps its SOC in `[0,1]`. -/
theorem battery_soc_unit_interval_witness :
    0 ≤ (([10, -10, 3] : List ℚ).foldl (fun s sp => (Battery.power_kw s sp).1)
      ⟨10, 1/2, 5, 5, 1, 1, 24⟩).soc ∧
    (([10, -10, 3] : List ℚ).foldl (fun s sp => (Battery.power_kw s sp).1)
      ⟨10, 1/2, 5, 5, 1, 1, 24⟩).soc ≤ 1 :=
  battery_soc_unit_interval ⟨10, 1/2, 5, 5, 1, 1, 24⟩ [10, -10, 3]
    (by norm_num [Battery.valid])

/-- Characterization of `constrained_battery_setpoint_kw` under the
repository's sign constraints (non-negative battery rates and feeder
limits): it is the spec's clamped projection, and whenever the feasibility
window is non-empty the resulting feeder net load respects both limits. -/
theorem constrained_battery_setpoint_spec (net target imp exp maxc maxd : ℚ)
    (hc : 0 ≤ maxc) (hd : 0 ≤ maxd) (himp : 0 ≤ imp) (hexp : 0 ≤ exp) :
    (constrained_battery_setpoint_kw net target imp exp maxc maxd =
      if max (-maxd) (-exp - net) ≤ min maxc (imp - net) then
        max (max (-maxd) (-exp - net))
          (min (max (-exp) (min target imp) - net) (min maxc (imp - net)))
      else max (-maxd) (min (max (-exp) (min target imp) - net) maxc)) ∧
    (max (-maxd) (-exp - net) ≤ min maxc (imp - net) →
      -exp ≤ net + constrained_battery_setpoint_kw net target imp exp maxc maxd ∧
      net + constrained_battery_setpoint_kw net target imp exp maxc maxd ≤ imp) := by
  have hexpimp : (-exp : ℚ) ≤ imp := by linarith
  have hct : rustClamp target (-exp) imp = max (-exp) (min target imp) :=
    rustClamp_eq_max_min _ _ _ hexpimp
  constructor
  · rw [constrained_battery_setpoint_kw, hct]
    split_ifs with hw
    · exact rustClamp_eq_max_min _ _ _ hw
    · exact rustClamp_eq_max_min _ _ _ (by linarith)
  · intro hw
    rw [constrained_battery_setpoint_kw, if_pos hw]
    have hm := rustClamp_mem (rustClamp target (-exp) imp - net)
      (max (-maxd) (-exp - net)) (min maxc (imp - net)) hw
    have hlo := le_trans (le_max_right (-maxd) (-exp - net)) hm.1
    have hhi := le_trans hm.2 (min_le_right maxc (imp - net))
    exact ⟨by linarith, by linarith⟩

/-- CLAIM C4. The naive controller's battery setpoint is exactly
`clamp(desired, low, high)` when `low ≤ high` and
`clamp(desired, −max_discharge, max_charge)` otherwise, with
`desired = clamp(target, −max_export, max_import) − net_without_battery`,
`low = max(−max_discharge, −max_export − net)` and
`high = min(max_charge, max_import − net)`; and whenever the window is
non-empty, `net_without_battery + battery_setpoint` lies within
`[−max_export, max_import]`. -/
theorem naive_battery_setpoint_spec (input : StepInput) (state : StepState)
    (net low high desired : ℚ)
    (hc : 0 ≤ state.battery_max_charge_kw) (hd : 0 ≤ state.battery_max_discharge_kw)
    (himp : 0 ≤ state.max_import_kw) (hexp : 0 ≤ state.max_export_kw)
    (hnet : net = (NaiveRtController.dispatch input state).base_demand_kw + input.solar_kw +
      (NaiveRtController.dispatch input state).ev_cap_kw)
    (hlow : low = max (-state.battery_max_discharge_kw) (-state.max_export_kw - net))
    (hhigh : high = min state.battery_max_charge_kw (state.max_import_kw - net))
    (hdes : desired = max (-state.max_export_kw)
      (min input.target_kw state.max_import_kw) - net) :
    ((NaiveRtController.dispatch input state).battery_setpoint_kw =
      if low ≤ high then max low (min desired high)
      else max (-state.battery_max_discharge_kw)
        (min desired state.battery_max_charge_kw)) ∧
    (low ≤ high →
      -state.max_export_kw ≤ net + (NaiveRtController.dispatch input state).battery_setpoint_kw ∧
      net + (NaiveRtController.dispatch input state).battery_setpoint_kw ≤
        state.max_import_kw) := by
  subst hlow hhigh hdes
  have hdisp : (NaiveRtController.dispatch input state).battery_setpoint_kw =
      constrained_battery_setpoint_kw net input.target_kw state.max_import_kw
        state.max_export_kw state.battery_max_charge_kw state.battery_max_discharge_kw := by
    rw [hnet]; rfl
  rw [hdisp]
  exact constrained_battery_setpoint_spec net input.target_kw state.max_import_kw
    state.max_export_kw state.battery_max_charge_kw state.battery_max_discharge_kw
    hc hd himp hexp

/-- Witness for C4 (scenario S4 of the spec): with net-without-battery 3,
target 1 and loose limits, the naive controller commands the battery to
discharge 2 kW (setpoint −2). -/
theorem naive_battery_setpoint_spec_witness :
    (NaiveRtController.dispatch ⟨0, 1, 1, 0, 3, 0, 0⟩ ⟨1/2, 4, 3, 5, 4⟩).battery_setpoint_kw
      = -2 := by
  have h := naive_battery_setpoint_spec ⟨0, 1, 1, 0, 3, 0, 0⟩ ⟨1/2, 4, 3, 5, 4⟩ 3 (-3) 2 (-2)
    (by norm_num) (by norm_num) (by norm_num) (by norm_num)
    (by norm_num [NaiveRtController.dispatch, apply_demand_response_kw,
      capped_flexible_load_kw])
    (by norm_num) (by norm_num) (by norm_num)
  rw [h.1]
  norm_num

/-- CLAIM C5. The greedy controller's capacity-aware rate limiting: for a
positive tracking value, with `current = tracking · dt · η_c`,
`future = remaining_charge_kwh[t mod S + 1]` and `room = (1 − soc) · capacity`,
the value passed to the feasibility window is
`tracking · room / (current + future)` when `current + future > room` (and
the total is positive), and `tracking` unchanged otherwise; the discharging
case is symmetric with `η_d` as a divisor and `available = soc · capacity`. -/
theorem greedy_desired_scaling_spec (c : GreedyController) (soc : ℚ) (t : ℕ)
    (tracking : ℚ) (hspd : 0 < c.steps_per_day) :
    (0 < tracking →
      c.desired_kw soc t tracking =
        if (1 - soc) * c.capacity_kwh <
            tracking * c.dt_hours * c.eta_c +
              c.remaining_charge_kwh.getD (t % c.steps_per_day + 1) 0 ∧
           0 < tracking * c.dt_hours * c.eta_c +
              c.remaining_charge_kwh.getD (t % c.steps_per_day + 1) 0
        then tracking * ((1 - soc) * c.capacity_kwh) /
            (tracking * c.dt_hours * c.eta_c +
              c.remaining_charge_kwh.getD (t % c.steps_per_day + 1) 0)
        else tracking) ∧
    (tracking < 0 →
      c.desired_kw soc t tracking =
        if soc * c.capacity_kwh <
            (-tracking) * c.dt_hours / c.eta_d +
              c.remaining_discharge_kwh.getD (t % c.steps_per_day + 1) 0 ∧
           0 < (-tracking) * c.dt_hours / c.eta_d +
              c.remaining_discharge_kwh.getD (t % c.steps_per_day + 1) 0
        then tracking * (soc * c.capacity_kwh) /
            ((-tracking) * c.dt_hours / c.eta_d +
              c.remaining_discharge_kwh.getD (t % c.steps_per_day + 1) 0)
        else tracking) := by
  have hidx : min (t % c.steps_per_day + 1) c.steps_per_day = t % c.steps_per_day + 1 :=
    min_eq_left (Nat.succ_le_of_lt (Nat.mod_lt t hspd))
  constructor
  · intro h
    rw [GreedyController.desired_kw, hidx, if_pos h]
    dsimp only
    split_ifs with hcond
    · ring
    · rfl
  · intro h
    rw [GreedyController.desired_kw, hidx, if_neg (not_lt.mpr (le_of_lt h)), if_pos h]
    dsimp only
    split_ifs with hcond
    · ring
    · rfl

/-- Witness for C5: a two-step controller with 8 kWh of future charge demand
at the next index, SOC 1/2 on a 10 kWh battery (room 5 kWh) and tracking
+2 kW over a 1 h step scales the setpoint to 2·5/10 = 1 kW. -/
theorem greedy_desired_scaling_spec_witness :
    GreedyController.desired_kw ⟨2, 10, 1, 1, 1, [0, 8, 0], [0, 0, 6]⟩ (1/2) 0 2 = 1 := by
  have h := (greedy_desired_scaling_spec ⟨2, 10, 1, 1, 1, [0, 8, 0], [0, 0, 6]⟩ (1/2) 0 2
    (by norm_num)).1 (by norm_num)
  rw [h]
  norm_num [List.getD]

/-- CLAIM C8. Every call to `SolarPvAr1::power_kw` — at night as well as in
daylight — advances the cloud multiplier exactly once to
`clamp(α·m + (1−α)·ε, 0.2, 1.2)` (the constructor starts it at 1.0), and
the call returns 0 when the daylight fraction is 0 and
`−(kw_peak · frac · m)` otherwise (with the advanced multiplier `m` and the
constructor-guaranteed `kw_peak ≥ 0`). -/
theorem ar1_power_spec :
    (∀ (kw : ℚ) (sr ss : ℕ) (a std : ℚ) (spd : ℕ),
      (SolarPvAr1.new kw sr ss a std spd).multiplier = 1) ∧
    ∀ (s : SolarPvAr1) (t : ℕ) (cv ε : ℚ),
      ((s.power_kw t cv ε).1.multiplier =
        rustClamp (s.alpha * s.multiplier + (1 - s.alpha) * ε) 0.2 1.2) ∧
      (daylight_frac t s.steps_per_day s.sunrise_idx s.sunset_idx cv = 0 →
        (s.power_kw t cv ε).2 = 0) ∧
      (0 ≤ s.kw_peak →
        0 < daylight_frac t s.steps_per_day s.sunrise_idx s.sunset_idx cv →
        (s.power_kw t cv ε).2 =
          -(s.kw_peak * daylight_frac t s.steps_per_day s.sunrise_idx s.sunset_idx cv *
            (s.power_kw t cv ε).1.multiplier)) := by
  refine ⟨fun kw sr ss a std spd => rfl, fun s t cv ε => ⟨?_, ?_, ?_⟩⟩
  · rw [SolarPvAr1.power_kw]
    split_ifs <;> rfl
  · intro hf
    rw [SolarPvAr1.power_kw, if_pos (le_of_eq hf)]
  · intro hk hf
    rw [SolarPvAr1.power_kw, if_neg (not_le.mpr hf)]
    dsimp only [SolarPvAr1.advance_multiplier]
    have hm : (0 : ℚ) ≤ rustClamp (s.alpha * s.multiplier + (1 - s.alpha) * ε) 0.2 1.2 :=
      le_trans (by norm_num)
        (rustClamp_mem (s.alpha * s.multiplier + (1 - s.alpha) * ε) 0.2 1.2 (by norm_num)).1
    rw [max_eq_left (mul_nonneg (mul_nonneg hk (le_of_lt hf)) hm)]

/-- Witness for C8: a freshly constructed AR(1) solar device has multiplier
1; at noon (t = 12, envelope 1, cos sample −1) with innovation 0 it outputs
`−(5 · 1 · 0.9) = −9/2` after the multiplier advances to 0.9. -/
theorem ar1_power_spec_witness :
    (SolarPvAr1.new 5 6 18 (9/10) (1/5) 24).multiplier = 1 ∧
    ((SolarPvAr1.new 5 6 18 (9/10) (1/5) 24).power_kw 12 (-1) 0).2 = -(9/2) := by
  constructor
  · exact ar1_power_spec.1 5 6 18 (9/10) (1/5) 24
  · have h := (ar1_power_spec.2 (SolarPvAr1.new 5 6 18 (9/10) (1/5) 24) 12 (-1) 0).2.2
      (by norm_num [SolarPvAr1.new]) (by norm_num [daylight_frac, SolarPvAr1.new])
    rw [h]
    norm_num [SolarPvAr1.new, SolarPvAr1.power_kw, SolarPvAr1.advance_multiplier,
      rustClamp, daylight_frac]

/-- The loop of `KpiReport::from_results` accumulates exactly the list sums
of the per-step DR request and achievement fields. -/
theorem kpi_foldl_dr_sums (dt : ℚ) (rs : List StepResult) (a : KpiAcc) :
    ((rs.foldl (kpiAccStep dt) a).dr_requested_sum =
      a.dr_requested_sum + (rs.map StepResult.dr_requested_kw).sum) ∧
    ((rs.foldl (kpiAccStep dt) a).dr_achieved_sum =
      a.dr_achieved_sum + (rs.map StepResult.dr_achieved_kw).sum) := by
  induction rs generalizing a with
  | nil => simp
  | cons r rest ih =>
    simp only [List.foldl_cons, List.map_cons, List.sum_cons]
    refine ⟨?_, ?_⟩
    · rw [(ih (kpiAccStep dt a r)).1]
      dsimp only [kpiAccStep]
      ring
    · rw [(ih (kpiAccStep dt a r)).2]
      dsimp only [kpiAccStep]
      ring

/-- CLAIM C10. `KpiReport::from_results` on an empty step vector returns
the all-zero report, and on any non-empty vector the curtailment percentage
is `100 · Σ dr_achieved / Σ dr_requested` when the denominator is positive
and 0 otherwise — for every model of `f32::sqrt`. -/
theorem kpi_empty_and_curtailment_spec (sqrtQ : ℚ → ℚ) (results : List StepResult)
    (dt cap : ℚ) (hne : results ≠ []) :
    KpiReport.from_results sqrtQ [] dt cap = ⟨0, 0, 0, 0, 0, 0, 0, 0, 0⟩ ∧
    (KpiReport.from_results sqrtQ results dt cap).curtailment_pct =
      (if 0 < (results.map StepResult.dr_requested_kw).sum
       then 100 * (results.map StepResult.dr_achieved_kw).sum /
         (results.map StepResult.dr_requested_kw).sum
       else 0) := by
  constructor
  · rfl
  · match results, hne with
    | r :: rest, _ =>
      have h := kpi_foldl_dr_sums dt (r :: rest) ⟨0, 0, 0, 0, 0, 0, 0, 0, 0⟩
      rw [KpiReport.from_results]
      dsimp only
      rw [h.1, h.2]
      simp only [zero_add]

/-- Witness for C10: a single step requesting 2 kW of DR and achieving 1 kW
yields a curtailment percentage of 50, and the empty run yields the zero
report. -/
theorem kpi_empty_and_curtailment_spec_witness :
    KpiReport.from_results (fun q => q) [] 1 10 = ⟨0, 0, 0, 0, 0, 0, 0, 0, 0⟩ ∧
    (KpiReport.from_results (fun q => q)
      [⟨0, 0, 0, 0, 0, 0, 0, 0, 0, 0, 0, 0, 0, 0, 0, 2, 1, true, 0⟩] 1 10).curtailment_pct
      = 50 := by
  have h := kpi_empty_and_curtailment_spec (fun q => q)
    [⟨0, 0, 0, 0, 0, 0, 0, 0, 0, 0, 0, 0, 0, 0, 0, 2, 1, true, 0⟩] 1 10 (by simp)
  refine ⟨h.1, ?_⟩
  rw [h.2]
  norm_num

/-- CLAIM C1. The claim states that for `Battery::power_kw` a positive
setpoint means charging: saturated to at most `max_charge_kw`, stored energy
added, SOC non-decreasing. The code (battery.rs lines 113-132) instead
treats a positive setpoint as DISCHARGE: on the battery with
`capacity_kwh = 10`, `soc = 1/2`, `max_charge_kw = 2`, `max_discharge_kw = 5`,
`η_c = η_d = 1`, `steps_per_day = 24` (so `dt = 1 h`), setpoint `+5` returns
`+5` — above the claimed cap `max_charge_kw = 2` — and the SOC falls from
`1/2` to `0` instead of rising. -/
theorem battery_positive_setpoint_discharges_bug :
    (Battery.power_kw ⟨10, 1/2, 2, 5, 1, 1, 24⟩ 5).2 = 5 ∧
    (Battery.power_kw ⟨10, 1/2, 2, 5, 1, 1, 24⟩ 5).1.soc = 0 ∧
    (Battery.power_kw ⟨10, 1/2, 2, 5, 1, 1, 24⟩ 5).1.soc < (1/2 : ℚ) ∧
    (2 : ℚ) < (Battery.power_kw ⟨10, 1/2, 2, 5, 1, 1, 24⟩ 5).2 := by
  norm_num [Battery.power_kw, rustClamp]

/-- CLAIM C6. The claim states the recorded `battery_actual_kw` always lies
in `[−max_discharge_kw, +max_charge_kw]`, including asymmetric limits. The
engine records `Battery::power_kw`'s return verbatim (engine.rs lines
119-120 and 149), and that code caps positive commands by
`max_discharge_kw`, not `max_charge_kw` (battery.rs line 115): on the
battery with `capacity_kwh = 20`, `soc = 3/4`, `max_charge_kw = 3`,
`max_discharge_kw = 6`, `η_c = η_d = 1`, `steps_per_day = 24`, setpoint `+6`
yields actual `+6 > max_charge_kw = 3`, violating the claimed upper bound. -/
theorem battery_actual_exceeds_charge_limit_bug :
    (Battery.power_kw ⟨20, 3/4, 3, 6, 1, 1, 24⟩ 6).2 = 6 ∧
    ¬ (Battery.power_kw ⟨20, 3/4, 3, 6, 1, 1, 24⟩ 6).2 ≤ (3 : ℚ) := by
  norm_num [Battery.power_kw, rustClamp]

/-- CLAIM C2. The claim states the simple solar model returns
`−max(0, kw_peak · frac(t) · (1 + noise))`, hence `≤ 0` at every step and
`< 0` at noon. The code (solar.rs lines 140-143) returns the POSITIVE value
`max(kw, 0)`: with `kw_peak = 5`, `steps_per_day = 24`, `sunrise = 6`,
`sunset = 18`, `noise_std = 0` (noise sample 0) at `t = 12` the envelope is
`x = 1/2`, `cos(2π·x) = cos π = −1`, `frac = 1`, and `power_kw` returns
`+5`, not `−5`. -/
theorem solar_simple_positive_sign_bug :
    SolarPv.power_kw ⟨5, 24, 6, 18⟩ 12 (-1) 0 = 5 ∧
    (0 : ℚ) < SolarPv.power_kw ⟨5, 24, 6, 18⟩ 12 (-1) 0 := by
  norm_num [SolarPv.power_kw, daylight_frac]

end VppSim
